import Mathlib

/-!
Shallow embedding of the watermark tool core
(`src/src/components/ImageViewer.tsx`: `addWatermark`, `loadImage`).

JavaScript numbers are modelled as exact reals; glyph metrics
(`ctx.measureText` under the font `${fontSize}px Arial`) are a parameter
`measure : ℝ → String → ℝ` of the embedding, since they depend on the
font backend of the browser. The canvas is modelled as its dimensions,
its style state and the list of drawing operations performed on it, in
order.
-/

namespace ImageViewer

/-- Field `position` of `WatermarkOptions`: one of the five placement
anchors used in single mode. -/
inductive Position
  | center
  | topLeft
  | topRight
  | bottomLeft
  | bottomRight
deriving DecidableEq

/-- Field `mode` of `WatermarkOptions`. -/
inductive Mode
  | single
  | tile
deriving DecidableEq

/-- The `WatermarkOptions` interface. -/
structure WatermarkOptions where
  text : String
  fontSize : ℝ
  color : String
  opacity : ℝ
  position : Position
  rotation : ℝ
  mode : Mode
  spacing : ℝ
  offsetX : ℝ
  offsetY : ℝ

/-- The `ImageFormat` union type. -/
inductive ImageFormat
  | png
  | jpeg
  | webp
deriving DecidableEq

/-- The `ExportOptions` interface; `quality` is an optional field. -/
structure ExportOptions where
  format : ImageFormat
  quality : Option ℝ

/-- An `HTMLImageElement` as the compositor reads it: its pixel
dimensions. -/
structure ImageEl where
  width : ℝ
  height : ℝ

/-- One recorded canvas drawing operation. -/
inductive DrawOp
  /-- Models `ctx.drawImage(image, x, y)`. -/
  | drawImage (img : ImageEl) (x y : ℝ)
  /-- Models one tile stamp: `ctx.save(); ctx.translate(centerX, centerY);
  ctx.rotate(angle); ctx.fillText(text, dx, dy); ctx.restore()`. -/
  | tileText (text : String) (centerX centerY angle dx dy : ℝ)
  /-- Models the single-mode stamp: `ctx.save(); ctx.translate(cx, cy);
  ctx.rotate(angle); ctx.translate(-cx, -cy); ctx.fillText(text, x, y);
  ctx.restore()`. -/
  | singleText (text : String) (cx cy angle x y : ℝ)

/-- The canvas after a render: dimensions, style state (`ctx.font` is the
string `${fontSizePx}px Arial`, modelled as the size and the family), and
the drawing operations in order. -/
structure Canvas where
  width : ℝ
  height : ℝ
  fontSizePx : ℝ
  fontFamily : String
  fillStyle : String
  globalAlpha : ℝ
  ops : List DrawOp

/-- The value `canvas.toDataURL(mimeType)` or
`canvas.toDataURL(mimeType, quality)` encodes: the browser encoder is
abstracted as the triple it is fed. `quality = none` for the
single-argument call used for PNG. -/
structure DataUrl where
  mime : String
  quality : Option ℝ
  canvas : Canvas

/-- The conversion of degrees to radians:
`const angle = (options.rotation * Math.PI) / 180`. -/
noncomputable def angle (rotation : ℝ) : ℝ :=
  rotation * Real.pi / 180

namespace Tile

/-- Step 1 of tile mode:
`const rotatedWidth = textWidth * cos + textHeight * sin` where
`cos = Math.abs(Math.cos(angle))` and `sin = Math.abs(Math.sin(angle))`. -/
noncomputable def rotatedWidth (textWidth textHeight rotation : ℝ) : ℝ :=
  textWidth * |Real.cos (angle rotation)| + textHeight * |Real.sin (angle rotation)|

/-- Step 1 of tile mode:
`const rotatedHeight = textWidth * sin + textHeight * cos`. -/
noncomputable def rotatedHeight (textWidth textHeight rotation : ℝ) : ℝ :=
  textWidth * |Real.sin (angle rotation)| + textHeight * |Real.cos (angle rotation)|

/-- Step 2: `const spacingGap = rotatedWidth * (spacingPercent / 100)`. -/
noncomputable def spacingGap (textWidth textHeight rotation spacing : ℝ) : ℝ :=
  rotatedWidth textWidth textHeight rotation * (spacing / 100)

/-- Step 3: `const cellWidth = rotatedWidth + spacingGap`. -/
noncomputable def cellWidth (textWidth textHeight rotation spacing : ℝ) : ℝ :=
  rotatedWidth textWidth textHeight rotation + spacingGap textWidth textHeight rotation spacing

/-- Step 3: `const cellHeight = rotatedHeight + spacingGap`. -/
noncomputable def cellHeight (textWidth textHeight rotation spacing : ℝ) : ℝ :=
  rotatedHeight textWidth textHeight rotation + spacingGap textWidth textHeight rotation spacing

/-- Step 4: `const cols = Math.ceil(canvas.width / cellWidth) + 2`.
Faithful for `cellWidth ≠ 0`; JavaScript produces `Infinity` or `NaN`
when `cellWidth = 0` (see `rendersToCompletion`). -/
noncomputable def cols (W textWidth textHeight rotation spacing : ℝ) : ℤ :=
  ⌈W / cellWidth textWidth textHeight rotation spacing⌉ + 2

/-- Step 4: `const rows = Math.ceil(canvas.height / cellHeight) + 2`. -/
noncomputable def rows (H textWidth textHeight rotation spacing : ℝ) : ℤ :=
  ⌈H / cellHeight textWidth textHeight rotation spacing⌉ + 2

/-- Step 6: `const startX = (canvas.width - (cols - 1) * cellWidth) / 2
+ offsetXPixels` where `offsetXPixels = canvas.width * (options.offsetX / 100)`. -/
noncomputable def startX (W textWidth textHeight rotation spacing offsetX : ℝ) : ℝ :=
  (W - ((cols W textWidth textHeight rotation spacing : ℝ) - 1) *
      cellWidth textWidth textHeight rotation spacing) / 2 +
    W * (offsetX / 100)

/-- Step 6: `const startY = (canvas.height - (rows - 1) * cellHeight) / 2
+ offsetYPixels`. -/
noncomputable def startY (H textWidth textHeight rotation spacing offsetY : ℝ) : ℝ :=
  (H - ((rows H textWidth textHeight rotation spacing : ℝ) - 1) *
      cellHeight textWidth textHeight rotation spacing) / 2 +
    H * (offsetY / 100)

end Tile

/-- The integer values visited by `for (let v = -1; v < n; v++)`:
the list `[-1, 0, ..., n - 1]`, empty when `n ≤ -1`. -/
def loopRange (n : ℤ) : List ℤ :=
  (List.range (n + 1).toNat).map (fun i : ℕ => -1 + (i : ℤ))

/-- Step 7 of tile mode: the stamps recorded by the double loop
`for (let row = -1; row < rows; row++) for (let col = -1; col < cols; col++)`,
each at center `(startX + col * cellWidth + rotatedWidth / 2,
startY + row * cellHeight + rotatedHeight / 2)`, rotated by `angle`, with
`ctx.fillText(options.text, -textWidth / 2, textHeight / 4)`. -/
noncomputable def tileOps (text : String) (W H textWidth textHeight rotation spacing offsetX offsetY : ℝ) :
    List DrawOp :=
  (loopRange (Tile.rows H textWidth textHeight rotation spacing)).flatMap fun row : ℤ =>
    (loopRange (Tile.cols W textWidth textHeight rotation spacing)).map fun col : ℤ =>
      DrawOp.tileText text
        (Tile.startX W textWidth textHeight rotation spacing offsetX +
          (col : ℝ) * Tile.cellWidth textWidth textHeight rotation spacing +
          Tile.rotatedWidth textWidth textHeight rotation / 2)
        (Tile.startY H textWidth textHeight rotation spacing offsetY +
          (row : ℝ) * Tile.cellHeight textWidth textHeight rotation spacing +
          Tile.rotatedHeight textWidth textHeight rotation / 2)
        (angle rotation) (-(textWidth / 2)) (textHeight / 4)

/-- The `switch (options.position)` of single mode: the unrotated anchor
point before the offsets are applied. -/
noncomputable def singleBasePos (W H textWidth textHeight : ℝ) : Position → ℝ × ℝ
  | .center => ((W - textWidth) / 2, (H + textHeight) / 2)
  | .topLeft => (20, 20 + textHeight)
  | .topRight => (W - textWidth - 20, 20 + textHeight)
  | .bottomLeft => (20, H - 20)
  | .bottomRight => (W - textWidth - 20, H - 20)

/-- The re-encoding step: `exportOptions?.format || 'png'`,
`exportOptions?.quality || 0.92` (the JavaScript `||` also replaces a
quality of `0` by the default), the mime type switch, and
`format === 'png' ? canvas.toDataURL(mimeType) : canvas.toDataURL(mimeType, quality)`. -/
noncomputable def encodeDataUrl (canvas : Canvas) (exportOptions : Option ExportOptions) : DataUrl :=
  let format := (exportOptions.map (·.format)).getD .png
  let quality : ℝ :=
    match exportOptions with
    | none => 0.92
    | some e =>
      match e.quality with
      | none => 0.92
      | some q => if q = 0 then 0.92 else q
  let mimeType : String :=
    match format with
    | .jpeg => "image/jpeg"
    | .webp => "image/webp"
    | .png => "image/png"
  if format = .png then ⟨mimeType, none, canvas⟩ else ⟨mimeType, some quality, canvas⟩

/-- The value the executor of `addWatermark` passes to `resolve`: the
canvas of the size of the image, the original drawn at `(0, 0)`, the
style state, the stamps of the selected mode, re-encoded per
`exportOptions`. `measure fontSize text` stands for
`ctx.measureText(text).width` under `ctx.font = ${fontSize}px Arial`;
`textHeight` is `options.fontSize`. -/
noncomputable def addWatermark (measure : ℝ → String → ℝ) (image : ImageEl)
    (options : WatermarkOptions) (exportOptions : Option ExportOptions) : DataUrl :=
  let W := image.width
  let H := image.height
  let textWidth := measure options.fontSize options.text
  let textHeight := options.fontSize
  let stamps : List DrawOp :=
    match options.mode with
    | .tile =>
      tileOps options.text W H textWidth textHeight options.rotation options.spacing
        options.offsetX options.offsetY
    | .single =>
      let p := singleBasePos W H textWidth textHeight options.position
      let x := p.1 + W * (options.offsetX / 100)
      let y := p.2 + H * (options.offsetY / 100)
      [DrawOp.singleText options.text (x + textWidth / 2) (y - textHeight / 2)
        (angle options.rotation) x y]
  encodeDataUrl
    { width := W
      height := H
      fontSizePx := options.fontSize
      fontFamily := "Arial"
      fillStyle := options.color
      globalAlpha := options.opacity
      ops := DrawOp.drawImage image 0 0 :: stamps }
    exportOptions

/-- Whether the render loops of `addWatermark` terminate, for an image of
positive dimensions. Single mode has no loop. In tile mode the code has
no guard on the cell size: when `cellWidth = 0` (for instance empty text
with rotation `0`, so `textWidth = 0` and the sine term vanishes),
JavaScript computes `cols = Math.ceil(W / 0) + 2 = Infinity` for `W > 0`
and the loop `for (let col = -1; col < cols; col++)` never exits; the
same happens with `cellHeight = 0` and the row loop. -/
def rendersToCompletion (measure : ℝ → String → ℝ) (image : ImageEl)
    (options : WatermarkOptions) : Prop :=
  options.mode = .single ∨
    (Tile.cellWidth (measure options.fontSize options.text) options.fontSize
        options.rotation options.spacing ≠ 0 ∧
      Tile.cellHeight (measure options.fontSize options.text) options.fontSize
        options.rotation options.spacing ≠ 0)

/-- How a promise settles. -/
inductive PromiseResult (α : Type)
  | resolved (value : α)
  | rejected (reason : String)

open Classical in
/-- How the promise returned by `addWatermark` settles: its executor is
`(resolve) => { ...; resolve(dataUrl); }` — there is no `reject`
parameter and no `throw`, so the only possible settled state is
`resolved`; when the tile loop never terminates the promise never
settles (`none`). -/
noncomputable def addWatermarkSettled (measure : ℝ → String → ℝ) (image : ImageEl)
    (options : WatermarkOptions) (exportOptions : Option ExportOptions) :
    Option (PromiseResult DataUrl) :=
  if rendersToCompletion measure image options then
    some (.resolved (addWatermark measure image options exportOptions))
  else
    none

/-- A `File` as `loadImage` inspects it: its declared MIME type and its
name. -/
structure FileInfo where
  name : String
  type : String
deriving DecidableEq

/-- The HEIC test of `loadImage`: the declared type is `image/heic` or
`image/heif`, or the lowercased name ends in `.heic` or `.heif`. -/
def isHeic (file : FileInfo) : Bool :=
  file.type == "image/heic" || file.type == "image/heif" ||
    file.name.toLower.endsWith ".heic" || file.name.toLower.endsWith ".heif"

/-- What `loadImage` hands to the decoding step (`FileReader` +
`Image`). -/
inductive ProcessedFile
  /-- The bytes of the original file, unchanged. -/
  | original (f : FileInfo)
  /-- The blob produced by `heic2any({ blob: file, toType, quality })`. -/
  | transcoded (f : FileInfo) (toType : String) (quality : ℚ)
deriving DecidableEq

/-- The pre-decode step of `loadImage`: a HEIC/HEIF file is transcoded by
`heic2any` to `image/jpeg` at quality `0.95`; any other file passes
through unchanged. -/
def loadImageProcess (file : FileInfo) : ProcessedFile :=
  if isHeic file then .transcoded file "image/jpeg" 0.95 else .original file

/-! ### Helper lemmas -/

/-- Membership in the JavaScript loop range `for (let v = -1; v < n; v++)`. -/
lemma mem_loopRange {n k : ℤ} : k ∈ loopRange n ↔ -1 ≤ k ∧ k ≤ n - 1 := by
  unfold loopRange
  rw [List.mem_map]
  constructor
  · rintro ⟨i, hi, rfl⟩
    rw [List.mem_range] at hi
    omega
  · rintro ⟨h1, h2⟩
    refine ⟨(k + 1).toNat, ?_, ?_⟩
    · rw [List.mem_range]
      omega
    · omega

lemma length_loopRange (n : ℤ) : (loopRange n).length = (n + 1).toNat := by
  rw [loopRange, List.length_map, List.length_range]

lemma tileOps_length (text : String) (W H tw th rot sp oX oY : ℝ) :
    (tileOps text W H tw th rot sp oX oY).length =
      (Tile.rows H tw th rot sp + 1).toNat * (Tile.cols W tw th rot sp + 1).toNat := by
  rw [tileOps, List.length_flatMap]
  simp only [Function.comp_def, List.length_map, length_loopRange]
  rw [List.map_const', List.sum_replicate, length_loopRange, smul_eq_mul]

/-- The canvas goes through the re-encoding step unchanged. -/
lemma encodeDataUrl_canvas (canvas : Canvas) (exportOptions : Option ExportOptions) :
    (encodeDataUrl canvas exportOptions).canvas = canvas := by
  rcases exportOptions with _ | e
  · rfl
  · rcases e with ⟨f, q⟩
    cases f <;> rfl

/-- The ops of the rendered canvas: the original image first, then the
stamps of the selected mode. -/
lemma addWatermark_ops (measure : ℝ → String → ℝ) (image : ImageEl)
    (options : WatermarkOptions) (exportOptions : Option ExportOptions) :
    (addWatermark measure image options exportOptions).canvas.ops =
      DrawOp.drawImage image 0 0 ::
        (match options.mode with
          | .tile =>
            tileOps options.text image.width image.height
              (measure options.fontSize options.text) options.fontSize
              options.rotation options.spacing options.offsetX options.offsetY
          | .single =>
            let p := singleBasePos image.width image.height
              (measure options.fontSize options.text) options.fontSize options.position
            let x := p.1 + image.width * (options.offsetX / 100)
            let y := p.2 + image.height * (options.offsetY / 100)
            [DrawOp.singleText options.text
              (x + measure options.fontSize options.text / 2)
              (y - options.fontSize / 2) (angle options.rotation) x y]) := by
  unfold addWatermark
  rw [encodeDataUrl_canvas]

/-! ### Concrete parameter sets used by the claims -/

/-- Empty watermark text, rotation 0, spacing 0, tile mode: the
degenerate input of the edge-policy claims. -/
noncomputable def degenOptions : WatermarkOptions :=
  { text := ""
    fontSize := 40
    color := "#ffffff"
    opacity := 0.5
    position := .center
    rotation := 0
    mode := .tile
    spacing := 0
    offsetX := 0
    offsetY := 0 }

/-- A 1px glyph run at font size 1, spacing 0, tile mode: pathological
geometry producing a huge grid. -/
noncomputable def capOptions : WatermarkOptions :=
  { text := "I"
    fontSize := 1
    color := "#ffffff"
    opacity := 0.5
    position := .center
    rotation := 0
    mode := .tile
    spacing := 0
    offsetX := 0
    offsetY := 0 }

/-- The scenario parameter set of the spec: `text="SAMPLE"`,
`fontSize=40`, single mode, center position, rotation 0, zero offsets. -/
noncomputable def scenarioOptions : WatermarkOptions :=
  { text := "SAMPLE"
    fontSize := 40
    color := "#ffffff"
    opacity := 0.5
    position := .center
    rotation := 0
    mode := .single
    spacing := 0
    offsetX := 0
    offsetY := 0 }

/-- A tile-mode parameter set with glyph 80×40, rotation 0, spacing 25,
zero offsets, used by witnesses. -/
noncomputable def demoTileOptions : WatermarkOptions :=
  { text := "WM"
    fontSize := 40
    color := "#ffffff"
    opacity := 0.5
    position := .center
    rotation := 0
    mode := .tile
    spacing := 25
    offsetX := 0
    offsetY := 0 }

/-- The single-mode placement as the spec words it (the comparison side
of the refinement claim C7): anchor by position, shift by
`(offsetX/100 * W, offsetY/100 * H)`, rotate by `rotationDeg` around
`(x + textWidth/2, y - textHeight/2)`, draw at `(x, y)`. -/
noncomputable def specSingleStamp (measure : ℝ → String → ℝ) (image : ImageEl)
    (options : WatermarkOptions) : List DrawOp :=
  let W := image.width
  let H := image.height
  let tw := measure options.fontSize options.text
  let th := options.fontSize
  let base : ℝ × ℝ :=
    match options.position with
    | .center => ((W - tw) / 2, (H + th) / 2)
    | .topLeft => (20, 20 + th)
    | .topRight => (W - tw - 20, 20 + th)
    | .bottomLeft => (20, H - 20)
    | .bottomRight => (W - tw - 20, H - 20)
  let x := base.1 + options.offsetX / 100 * W
  let y := base.2 + options.offsetY / 100 * H
  [DrawOp.drawImage image 0 0,
    DrawOp.singleText options.text (x + tw / 2) (y - th / 2)
      (options.rotation * Real.pi / 180) x y]

/-! ### Evaluation lemmas at rotation 0 -/

lemma angle_zero : angle 0 = 0 := by
  simp [angle]

lemma cellWidth_80_40 : Tile.cellWidth 80 40 0 25 = 100 := by
  simp [Tile.cellWidth, Tile.rotatedWidth, Tile.spacingGap, angle]
  norm_num

lemma cellHeight_80_40 : Tile.cellHeight 80 40 0 25 = 60 := by
  simp [Tile.cellHeight, Tile.rotatedWidth, Tile.rotatedHeight, Tile.spacingGap, angle]
  norm_num

lemma cellWidth_degen : Tile.cellWidth 0 40 0 0 = 0 := by
  simp [Tile.cellWidth, Tile.rotatedWidth, Tile.spacingGap, angle]

lemma rotatedWidth_degen : Tile.rotatedWidth 0 40 0 = 0 := by
  simp [Tile.rotatedWidth, angle]

lemma cellWidth_cap : Tile.cellWidth 1 1 0 0 = 1 := by
  simp [Tile.cellWidth, Tile.rotatedWidth, Tile.spacingGap, angle]

lemma cellHeight_cap : Tile.cellHeight 1 1 0 0 = 1 := by
  simp [Tile.cellHeight, Tile.rotatedWidth, Tile.rotatedHeight, Tile.spacingGap, angle]

lemma cols_80_40 : Tile.cols 1000 80 40 0 25 = 12 := by
  rw [Tile.cols, cellWidth_80_40]
  norm_num

lemma startX_80_40 : Tile.startX 1000 80 40 0 25 50 = 450 := by
  rw [Tile.startX, cols_80_40, cellWidth_80_40]
  norm_num

lemma cols_cap : Tile.cols 2000 1 1 0 0 = 2002 := by
  rw [Tile.cols, cellWidth_cap]
  norm_num

lemma rows_cap : Tile.rows 2000 1 1 0 0 = 2002 := by
  rw [Tile.rows, cellHeight_cap]
  norm_num

/-! ### The claims -/

/-- C6: Dimension preservation — for every input image, every parameter
set and every export option, in both modes, the output canvas built by
`addWatermark` has exactly the pixel dimensions of the input image:
watermarking never crops, scales, or pads the source. -/
theorem C6_dimension_preservation (measure : ℝ → String → ℝ) (image : ImageEl)
    (options : WatermarkOptions) (exportOptions : Option ExportOptions) :
    (addWatermark measure image options exportOptions).canvas.width = image.width ∧
    (addWatermark measure image options exportOptions).canvas.height = image.height := by
  unfold addWatermark
  rw [encodeDataUrl_canvas]
  exact ⟨rfl, rfl⟩

/-- C9: Decoder HEIC handling — `loadImage` routes a file to the
`heic2any` transcode (to `image/jpeg` at quality `0.95`) exactly when its
declared MIME type is `image/heic` or `image/heif` or its lowercased name
ends in `.heic` or `.heif`; every other file passes through unchanged to
the decoding step. -/
theorem C9_heic_detection (file : FileInfo) :
    (isHeic file = true ↔
      file.type = "image/heic" ∨ file.type = "image/heif" ∨
        file.name.toLower.endsWith ".heic" = true ∨
        file.name.toLower.endsWith ".heif" = true) ∧
    (isHeic file = true →
      loadImageProcess file = .transcoded file "image/jpeg" 0.95) ∧
    (isHeic file = false → loadImageProcess file = .original file) := by
  refine ⟨?_, ?_, ?_⟩
  · simp [isHeic, Bool.or_eq_true, or_assoc]
  · intro h
    simp [loadImageProcess, h]
  · intro h
    simp [loadImageProcess, h]

/-- C10: No error signaling at the compositor interface — the executor of
the promise returned by `addWatermark` only ever calls `resolve`: the
settled state can never be `rejected` (no `EncodingError`, no
`DegenerateTilingError`, no typed error at all), and whenever the render
loops finish the promise resolves with the data URL. -/
theorem C10_no_reject_path (measure : ℝ → String → ℝ) (image : ImageEl)
    (options : WatermarkOptions) (exportOptions : Option ExportOptions) :
    (∀ msg, addWatermarkSettled measure image options exportOptions ≠
      some (.rejected msg)) ∧
    (rendersToCompletion measure image options →
      addWatermarkSettled measure image options exportOptions =
        some (.resolved (addWatermark measure image options exportOptions))) := by
  constructor
  · intro msg h
    unfold addWatermarkSettled at h
    split at h
    · simp at h
    · simp at h
  · intro h
    unfold addWatermarkSettled
    rw [if_pos h]

/-- C2 (code bug): Degenerate-text termination fails — with `text = ""`
(so `textWidth = 0`), rotation `0` and tile mode, the code computes
`rotatedWidth = 0` and `cellWidth = 0`; there is no 1px-fallback guard, so
JavaScript evaluates `cols = Math.ceil(100 / 0) + 2 = Infinity` on a
100×100 image and the col loop never exits: the render does not
terminate, contradicting the claim. -/
theorem C2_degenerate_text_loops :
    Tile.rotatedWidth 0 40 0 = 0 ∧
    Tile.cellWidth 0 40 0 0 = 0 ∧
    ¬ rendersToCompletion (fun _ _ => 0) ⟨100, 100⟩ degenOptions := by
  refine ⟨rotatedWidth_degen, cellWidth_degen, ?_⟩
  rintro (h | ⟨hcw, _⟩)
  · simp [degenOptions] at h
  · exact hcw cellWidth_degen

/-- C3 (code bug): no tile-count cap — with a 1px-wide glyph at font size
1, spacing 0 and rotation 0 on a 2000×2000 image, the code computes a
2002×2002 grid and performs `1 + 2003 * 2003` (over four million) draw
operations, far beyond the 100k cap the claim requires, and the promise
can never signal a `DegenerateTilingError` (its executor has no reject
path at all). -/
theorem C3_no_tile_cap :
    Tile.cols 2000 1 1 0 0 = 2002 ∧
    Tile.rows 2000 1 1 0 0 = 2002 ∧
    (100000 : ℤ) < (Tile.cols 2000 1 1 0 0 + 1) * (Tile.rows 2000 1 1 0 0 + 1) ∧
    (addWatermark (fun _ _ => 1) ⟨2000, 2000⟩ capOptions none).canvas.ops.length =
      1 + 2003 * 2003 ∧
    (∀ msg, addWatermarkSettled (fun _ _ => 1) ⟨2000, 2000⟩ capOptions none ≠
      some (.rejected msg)) := by
  refine ⟨cols_cap, rows_cap, ?_, ?_, ?_⟩
  · rw [cols_cap, rows_cap]
    norm_num
  · rw [addWatermark_ops]
    show (DrawOp.drawImage ⟨2000, 2000⟩ 0 0 ::
      tileOps "I" 2000 2000 ((fun _ _ => (1 : ℝ)) (1 : ℝ) "I") 1 0 0 0 0).length =
        1 + 2003 * 2003
    rw [List.length_cons, tileOps_length, rows_cap, cols_cap]
    decide
  · intro msg h
    unfold addWatermarkSettled at h
    split at h
    · simp at h
    · simp at h

/-- C5: Tile non-overlap — for every rotation in `[-180, 180]` and every
spacing `≥ 0` (with nonnegative glyph metrics), the rotated bounding box
is nonnegative and fits inside the cell: `rotatedWidth ≤ cellWidth` and
`rotatedHeight ≤ cellHeight`, so boxes stamped at centers one `cellWidth`
apart horizontally (one `cellHeight` vertically) never overlap. -/
theorem C5_tile_non_overlap (tw th rot sp : ℝ) (htw : 0 ≤ tw) (hth : 0 ≤ th)
    (hrot1 : -180 ≤ rot) (hrot2 : rot ≤ 180) (hsp : 0 ≤ sp) :
    0 ≤ Tile.rotatedWidth tw th rot ∧ 0 ≤ Tile.rotatedHeight tw th rot ∧
    Tile.rotatedWidth tw th rot ≤ Tile.cellWidth tw th rot sp ∧
    Tile.rotatedHeight tw th rot ≤ Tile.cellHeight tw th rot sp := by
  have hrw : 0 ≤ Tile.rotatedWidth tw th rot := by
    unfold Tile.rotatedWidth
    positivity
  have hrh : 0 ≤ Tile.rotatedHeight tw th rot := by
    unfold Tile.rotatedHeight
    positivity
  have hgap : 0 ≤ Tile.spacingGap tw th rot sp := by
    unfold Tile.spacingGap
    have : 0 ≤ sp / 100 := by positivity
    exact mul_nonneg hrw this
  refine ⟨hrw, hrh, ?_, ?_⟩
  · unfold Tile.cellWidth
    linarith
  · unfold Tile.cellHeight
    linarith

/-- Witness for C5 at a concrete input: glyph 80×40, rotation 0,
spacing 50. -/
theorem C5_tile_non_overlap_witness :
    Tile.rotatedWidth 80 40 0 ≤ Tile.cellWidth 80 40 0 50 :=
  (C5_tile_non_overlap 80 40 0 50 (by norm_num) (by norm_num) (by norm_num)
    (by norm_num) (by norm_num)).2.2.1

/-- One axis of tile coverage: with a positive cell and a pixel offset of
at most half a cell, the first cell (index `-1`) starts at or before `0`
and the last cell (index `cols - 1 = ⌈L / cell⌉ + 1`) ends at or beyond
`L`. -/
lemma axisCoverage (L cell off : ℝ) (hc : 0 < cell) (hoff : |off| ≤ cell / 2) :
    (L - (((⌈L / cell⌉ + 2 : ℤ) : ℝ) - 1) * cell) / 2 + off + (-1) * cell ≤ 0 ∧
    L ≤ (L - (((⌈L / cell⌉ + 2 : ℤ) : ℝ) - 1) * cell) / 2 + off +
      (((⌈L / cell⌉ + 2 : ℤ) : ℝ) - 1) * cell + cell := by
  have h1 : L / cell ≤ (⌈L / cell⌉ : ℝ) := Int.le_ceil _
  have h2 : L ≤ (⌈L / cell⌉ : ℝ) * cell := by
    rwa [div_le_iff₀ hc] at h1
  obtain ⟨hl, hr⟩ := abs_le.mp hoff
  push_cast
  constructor <;> nlinarith [hc, h2, hl, hr]

/-- C4 (counterexample): on a 1000×1000 image with measured
`textWidth = 80`, `fontSize = 40`, rotation `0`, spacing `25` (so
`cellWidth = 100`, `cols = 12`) and `offsetX` at its extreme `+50`, the
first cell of the grid (column `-1`) starts at
`startX - cellWidth = 350 > 0`: the left border of the canvas is not
covered, refuting the claim that the +2 pad guarantees coverage at ±50%
offsets. -/
theorem C4_coverage_counterexample :
    Tile.cellWidth 80 40 0 25 = 100 ∧
    Tile.cols 1000 80 40 0 25 = 12 ∧
    Tile.startX 1000 80 40 0 25 50 = 450 ∧
    0 < Tile.startX 1000 80 40 0 25 50 + (-1 : ℝ) * Tile.cellWidth 80 40 0 25 := by
  refine ⟨cellWidth_80_40, cols_80_40, startX_80_40, ?_⟩
  rw [startX_80_40, cellWidth_80_40]
  norm_num

/-- C4 (amended): Coverage holds whenever the per-axis pixel offset
`|dimension * (offset / 100)|` is at most half the cell size (instead of
for every offset up to the ±50 extremes): then on each axis the first
cell of the grid (index `-1`) starts at or before `0` and the last cell
(index `cols - 1`, respectively `rows - 1`) ends at or beyond the canvas
dimension, leaving no un-tiled border. -/
theorem C4_coverage_with_bounded_offset (W H tw th rot sp oX oY : ℝ)
    (hcw : 0 < Tile.cellWidth tw th rot sp)
    (hch : 0 < Tile.cellHeight tw th rot sp)
    (hx : |W * (oX / 100)| ≤ Tile.cellWidth tw th rot sp / 2)
    (hy : |H * (oY / 100)| ≤ Tile.cellHeight tw th rot sp / 2) :
    Tile.startX W tw th rot sp oX + (-1 : ℝ) * Tile.cellWidth tw th rot sp ≤ 0 ∧
    W ≤ Tile.startX W tw th rot sp oX +
      ((Tile.cols W tw th rot sp : ℝ) - 1) * Tile.cellWidth tw th rot sp +
      Tile.cellWidth tw th rot sp ∧
    Tile.startY H tw th rot sp oY + (-1 : ℝ) * Tile.cellHeight tw th rot sp ≤ 0 ∧
    H ≤ Tile.startY H tw th rot sp oY +
      ((Tile.rows H tw th rot sp : ℝ) - 1) * Tile.cellHeight tw th rot sp +
      Tile.cellHeight tw th rot sp := by
  simp only [Tile.startX, Tile.startY, Tile.cols, Tile.rows]
  exact ⟨(axisCoverage W _ _ hcw hx).1, (axisCoverage W _ _ hcw hx).2,
    (axisCoverage H _ _ hch hy).1, (axisCoverage H _ _ hch hy).2⟩

/-- C1: Tile-mode geometry — for every image and every tile-mode
parameter set whose render terminates, the code computes exactly the
algorithm of the spec: the rotated bounding box from `θ = rotation·π/180`,
`spacingGap = rotatedWidth·(spacing/100)`, the cell sizes, the +2-padded
grid extent, the centered and offset start, and one stamp per
`(row, col)` with `row` from `-1` to `rows - 1` and `col` from `-1` to
`cols - 1`, rotated by `θ` about the cell center and drawn offset by
`(-textWidth/2, +textHeight/4)` from it. -/
theorem C1_tile_geometry (measure : ℝ → String → ℝ) (image : ImageEl)
    (options : WatermarkOptions) (exportOptions : Option ExportOptions)
    (hmode : options.mode = .tile)
    (hterm : rendersToCompletion measure image options) :
    let W := image.width
    let H := image.height
    let tw := measure options.fontSize options.text
    let th := options.fontSize
    let rot := options.rotation
    let sp := options.spacing
    let θ := rot * Real.pi / 180
    Tile.rotatedWidth tw th rot = tw * |Real.cos θ| + th * |Real.sin θ| ∧
    Tile.rotatedHeight tw th rot = tw * |Real.sin θ| + th * |Real.cos θ| ∧
    Tile.spacingGap tw th rot sp = Tile.rotatedWidth tw th rot * (sp / 100) ∧
    Tile.cellWidth tw th rot sp = Tile.rotatedWidth tw th rot + Tile.spacingGap tw th rot sp ∧
    Tile.cellHeight tw th rot sp = Tile.rotatedHeight tw th rot + Tile.spacingGap tw th rot sp ∧
    Tile.cols W tw th rot sp = ⌈W / Tile.cellWidth tw th rot sp⌉ + 2 ∧
    Tile.rows H tw th rot sp = ⌈H / Tile.cellHeight tw th rot sp⌉ + 2 ∧
    Tile.startX W tw th rot sp options.offsetX =
      (W - ((Tile.cols W tw th rot sp : ℝ) - 1) * Tile.cellWidth tw th rot sp) / 2 +
        options.offsetX / 100 * W ∧
    Tile.startY H tw th rot sp options.offsetY =
      (H - ((Tile.rows H tw th rot sp : ℝ) - 1) * Tile.cellHeight tw th rot sp) / 2 +
        options.offsetY / 100 * H ∧
    (addWatermark measure image options exportOptions).canvas.ops =
      DrawOp.drawImage image 0 0 ::
        (loopRange (Tile.rows H tw th rot sp)).flatMap (fun row : ℤ =>
          (loopRange (Tile.cols W tw th rot sp)).map (fun col : ℤ =>
            DrawOp.tileText options.text
              (Tile.startX W tw th rot sp options.offsetX +
                (col : ℝ) * Tile.cellWidth tw th rot sp +
                Tile.rotatedWidth tw th rot / 2)
              (Tile.startY H tw th rot sp options.offsetY +
                (row : ℝ) * Tile.cellHeight tw th rot sp +
                Tile.rotatedHeight tw th rot / 2)
              θ (-(tw / 2)) (th / 4))) ∧
    (∀ n k : ℤ, k ∈ loopRange n ↔ -1 ≤ k ∧ k ≤ n - 1) := by
  intro W H tw th rot sp θ
  refine ⟨rfl, rfl, rfl, rfl, rfl, rfl, rfl, ?_, ?_, ?_, fun n k => mem_loopRange⟩
  · rw [Tile.startX]
    ring
  · rw [Tile.startY]
    ring
  · rw [addWatermark_ops]
    simp only [hmode]
    rw [tileOps]
    simp only [angle]

/-- Witness for C1 at a concrete input: 1000×1000 image, measured
`textWidth = 80`, `fontSize = 40`, rotation 0, spacing 25. -/
theorem C1_tile_geometry_witness :
    Tile.spacingGap 80 40 0 25 = Tile.rotatedWidth 80 40 0 * (25 / 100) := by
  have h := C1_tile_geometry (fun _ _ => 80) ⟨1000, 1000⟩ demoTileOptions none rfl
    (Or.inr ⟨(by rw [cellWidth_80_40]; norm_num : Tile.cellWidth 80 40 0 25 ≠ 0),
      (by rw [cellHeight_80_40]; norm_num : Tile.cellHeight 80 40 0 25 ≠ 0)⟩)
  exact h.2.2.1

/-- C7: Single-mode placement — for every single-mode parameter set the
canvas receives the original image and exactly one text stamp, placed as
the spec words it (`specSingleStamp`): the position anchor, shifted by
the percent offsets, rotated about `(x + textWidth/2, y - textHeight/2)`,
drawn at `(x, y)`; and on the 800×600 scenario with `fontSize = 40`,
center position, rotation 0 and zero offsets, the anchor lands exactly at
`((800 - textWidth)/2, 320)` (hence within ±1px). -/
theorem C7_single_placement :
    (∀ (measure : ℝ → String → ℝ) (image : ImageEl) (options : WatermarkOptions)
        (exportOptions : Option ExportOptions),
      options.mode = .single →
      (addWatermark measure image options exportOptions).canvas.ops =
        specSingleStamp measure image options) ∧
    (∀ measure : ℝ → String → ℝ,
      (addWatermark measure ⟨800, 600⟩ scenarioOptions none).canvas.ops =
        [DrawOp.drawImage ⟨800, 600⟩ 0 0,
          DrawOp.singleText "SAMPLE" 400 300 0
            ((800 - measure 40 "SAMPLE") / 2) 320]) := by
  have general : ∀ (measure : ℝ → String → ℝ) (image : ImageEl)
      (options : WatermarkOptions) (exportOptions : Option ExportOptions),
      options.mode = .single →
      (addWatermark measure image options exportOptions).canvas.ops =
        specSingleStamp measure image options := by
    intro measure image options exportOptions hmode
    rw [addWatermark_ops]
    simp only [hmode]
    cases hpos : options.position <;>
      simp only [specSingleStamp, singleBasePos, hpos, angle] <;>
      norm_num <;> ring_nf <;> simp
  refine ⟨general, ?_⟩
  intro measure
  rw [general measure ⟨800, 600⟩ scenarioOptions none rfl]
  simp only [specSingleStamp, scenarioOptions]
  norm_num
  ring

/-- C8: Determinism — `addWatermark` is a pure function of its inputs:
two calls with identical measure backend, image, options and export
options produce the same data URL, and the promise settles the same
way. -/
theorem C8_determinism (m1 m2 : ℝ → String → ℝ) (i1 i2 : ImageEl)
    (o1 o2 : WatermarkOptions) (e1 e2 : Option ExportOptions)
    (hm : m1 = m2) (hi : i1 = i2) (ho : o1 = o2) (he : e1 = e2) :
    addWatermark m1 i1 o1 e1 = addWatermark m2 i2 o2 e2 ∧
    addWatermarkSettled m1 i1 o1 e1 = addWatermarkSettled m2 i2 o2 e2 := by
  subst hm hi ho he
  exact ⟨rfl, rfl⟩

/-- Witness for C8 at a concrete input. -/
theorem C8_determinism_witness :
    addWatermark (fun _ _ => 0) ⟨800, 600⟩ scenarioOptions none =
      addWatermark (fun _ _ => 0) ⟨800, 600⟩ scenarioOptions none :=
  (C8_determinism (fun _ _ => 0) (fun _ _ => 0) ⟨800, 600⟩ ⟨800, 600⟩
    scenarioOptions scenarioOptions none none rfl rfl rfl rfl).1

/-- Witness for the amended C4 at a concrete input: 1000×1000 image,
glyph 80×40, rotation 0, spacing 25, offsets 5 and 3 percent (pixel
shifts 50 and 30, half a cell each). -/
theorem C4_coverage_with_bounded_offset_witness :
    Tile.startX 1000 80 40 0 25 5 + (-1 : ℝ) * Tile.cellWidth 80 40 0 25 ≤ 0 :=
  (C4_coverage_with_bounded_offset 1000 1000 80 40 0 25 5 3
    (by rw [cellWidth_80_40]; norm_num)
    (by rw [cellHeight_80_40]; norm_num)
    (by rw [cellWidth_80_40]; norm_num)
    (by rw [cellHeight_80_40]; norm_num)).1

end ImageViewer
